import Mathlib

/-
  Verification development for the RubyGateway helper layer
  (Sources/RubyGatewayHelpers/include/rbg_helpers.h and friends).

  The repository ships the C declarations of the boundary in header files;
  the function bodies live in a separate .m translation unit that is not
  part of the analysed sources.  Types, enums and structs below are
  translated from the headers; the behaviour of each function is modelled
  from the specification (spec.md) where the body is unavailable, and each
  such definition is marked `Modelled from the spec:` in its doc comment.
-/

namespace RubyGateway

/-- VALUE is the opaque Ruby value handle: `typedef unsigned long VALUE`
(rbg_helpers.h line 21).  Modelled as a natural number; the caller never
inspects it, only passes it back into runtime operations. -/
abbrev VALUE := Nat

/-- ID is the opaque interned-name handle: `typedef VALUE ID`
(rbg_helpers.h line 22). -/
abbrev ID := VALUE

/-- Opaque nil value of the runtime; the concrete numeral is immaterial to
the model, it is never inspected by the boundary. -/
def QNIL : VALUE := 8

/-- Opaque undefined-sentinel value of the runtime, used as the unspecified
result on the Failed path.  Modelled from the spec: "writes Failed and
returns an unspecified/sentinel result value" (spec.md section 4.1). -/
def QUNDEF : VALUE := 52

/-- Status is the caller-visible out-of-band signal, conceptually Ok or
Failed (spec.md section 3); in the C headers it is the int cell behind the
`int * _Nonnull status` parameter of every protected call. -/
inductive Status where
  | ok
  | failed
deriving DecidableEq, Repr

/-- A non-local jump of the host runtime (longjmp-style unwinding): an
exception raise carrying the exception object, an iterator break carrying
a value, or another tagged transfer (throw / return).  Modelled from the
spec: spec.md sections 1 and 7. -/
inductive JumpKind where
  | raised (e : VALUE)
  | brk (v : VALUE)
  | tag (t : Nat)
deriving DecidableEq, Repr

/-- Mutable runtime state visible to the boundary: the currently-pending
exception of the runtime (rb_errinfo-style). -/
structure RState where
  pendingExc : Option VALUE
deriving DecidableEq, Repr

/-- A runtime computation: from a runtime state, either a normal result or
a non-local jump, together with the successor state.  This is the shallow
embedding of "a runtime action that may raise". -/
abbrev RComp (α : Type) := RState → Except JumpKind α × RState

/-- Raising an exception inside the runtime: records the pending exception
and signals the jump.  Modelled from the spec: the raise-unwind
primitive consumed by the boundary (spec.md section 6). -/
def rbg_raise {α : Type} (e : VALUE) : RComp α := fun s =>
  (Except.error (JumpKind.raised e), { s with pendingExc := some e })

/-- The protected-call combinator shared by every rbg_*_protect entry
point.  Modelled from the spec: the rb_protect-based C bodies are not in
the analysed sources; spec.md section 4.1 specifies: run the action inside
a jump-catching scope; on success write Ok to the status cell of the caller and
return the result of the action; on an intercepted jump write Failed and return
the sentinel.  The status cell the caller initialised is taken as an
argument and is overwritten on both paths. -/
def rbg_protect {α : Type} (sentinel : α) (action : RComp α)
    (statusCell : Option Status) (s : RState) : (Option Status × α) × RState :=
  match action s with
  | (Except.ok v, s1) => ((some Status.ok, v), s1)
  | (Except.error _, s1) => ((some Status.failed, sentinel), s1)

/- ## Callback protocol types (translated from rbg_helpers.h) -/

/-- Things a Swift callback can ask Ruby to do (rbg_helpers.h lines
57 to 68, enum Rbg_return_type). -/
inductive Rbg_return_type where
  | RBG_RT_VALUE
  | RBG_RT_RAISE
  | RBG_RT_BREAK
  | RBG_RT_BREAK_VALUE
  | RBG_RT_JUMP
deriving DecidableEq, Repr

/-- Express what a Swift callback wants Ruby to do (rbg_helpers.h lines
71 to 76, struct Rbg_return_value): the tag plus a value to return or an
exception to raise. -/
structure Rbg_return_value where
  type : Rbg_return_type
  value : VALUE
deriving DecidableEq, Repr

/-- Model of a C void pointer: an opaque context handle. -/
abbrev PVoid := Nat

/-- Callback into Swift code for a block, using a void pointer context
(rbg_helpers.h lines 79 to 83, Rbg_pvoid_block_call): context, argument
vector, block argument; the Rbg_return_value out-parameter becomes the
function result.  The handler is a plain function: it never performs a
non-local jump itself. -/
abbrev Rbg_pvoid_block_call := PVoid → List VALUE → VALUE → Rbg_return_value

/-- Realisation of the ReturnInstruction of a callback by the invoker.
Modelled from the spec: spec.md section 4.2 — Value(v) completes normally
with v; Raise(v) re-enters the native raise mechanism of the runtime with v;
Break / BreakWithValue signal the iteration-termination protocol; Jump
lets the in-flight non-local transfer continue propagating (the tag is
carried in the value field). -/
def rbg_realize_return (rv : Rbg_return_value) : RComp VALUE := fun s =>
  match rv.type with
  | Rbg_return_type.RBG_RT_VALUE => (Except.ok rv.value, s)
  | Rbg_return_type.RBG_RT_RAISE => rbg_raise rv.value s
  | Rbg_return_type.RBG_RT_BREAK => (Except.error (JumpKind.brk QNIL), s)
  | Rbg_return_type.RBG_RT_BREAK_VALUE => (Except.error (JumpKind.brk rv.value), s)
  | Rbg_return_type.RBG_RT_JUMP => (Except.error (JumpKind.tag rv.value), s)

/- ## The black-box runtime primitives consumed by the boundary -/

/-- The host runtime primitives the invoker wraps (spec.md section 6
lists them as the consumed boundary surface).  Each is an arbitrary
runtime computation: the semantics of the runtime itself are out of scope, only
the fact that each call may raise matters to the boundary. -/
structure RubyRuntime where
  rb_load : VALUE → Bool → RComp Unit
  rb_intern_rt : String → RComp ID
  rb_const_get : VALUE → ID → RComp VALUE
  rb_const_set : VALUE → ID → VALUE → RComp Unit
  rb_inspect : VALUE → RComp VALUE
  rb_funcallv : VALUE → ID → List VALUE → Bool → RComp VALUE
  rb_String : VALUE → RComp VALUE
  rb_Array : VALUE → RComp VALUE
  rb_Hash : VALUE → RComp VALUE
  rb_define_class : String → VALUE → VALUE → RComp VALUE
  rb_define_module : String → VALUE → RComp VALUE
  rb_num2dbl : VALUE → RComp ℚ
  rb_proc_call : VALUE → List VALUE → VALUE → RComp VALUE

/-- Safely call rb_load and report exception status (rbg_helpers.h line
28).  Modelled from the spec: the body is the protected-call combinator
applied to the black-box load primitive. -/
def rbg_load_protect (rt : RubyRuntime) (fname : VALUE) (wrap : Bool)
    (statusCell : Option Status) (s : RState) : (Option Status × Unit) × RState :=
  rbg_protect () (rt.rb_load fname wrap) statusCell s

/-- Safely call rb_intern and report exception status (rbg_helpers.h line
31).  Modelled from the spec. -/
def rbg_intern_protect (rt : RubyRuntime) (name : String)
    (statusCell : Option Status) (s : RState) : (Option Status × ID) × RState :=
  rbg_protect QUNDEF (rt.rb_intern_rt name) statusCell s

/-- Safely call rb_const_get_at and report exception status (rbg_helpers.h
line 34).  Modelled from the spec. -/
def rbg_const_get_protect (rt : RubyRuntime) (value : VALUE) (id : ID)
    (statusCell : Option Status) (s : RState) : (Option Status × VALUE) × RState :=
  rbg_protect QUNDEF (rt.rb_const_get value id) statusCell s

/-- Safely call rb_const_set and report exception status (rbg_helpers.h
lines 40 to 41).  Modelled from the spec. -/
def rbg_const_set_protect (rt : RubyRuntime) (clazz : VALUE) (id : ID)
    (constant : VALUE) (statusCell : Option Status) (s : RState) :
    (Option Status × Unit) × RState :=
  rbg_protect () (rt.rb_const_set clazz id constant) statusCell s

/-- Safely call rb_inspect and report exception status (rbg_helpers.h line
44).  Modelled from the spec. -/
def rbg_inspect_protect (rt : RubyRuntime) (value : VALUE)
    (statusCell : Option Status) (s : RState) : (Option Status × VALUE) × RState :=
  rbg_protect QUNDEF (rt.rb_inspect value) statusCell s

/-- Safely call rb_funcallv and report exception status (rbg_helpers.h
lines 47 to 49); argc/argv become a list, kwArgs a flag.  Modelled from
the spec. -/
def rbg_funcallv_protect (rt : RubyRuntime) (value : VALUE) (id : ID)
    (argv : List VALUE) (kwArgs : Bool) (statusCell : Option Status)
    (s : RState) : (Option Status × VALUE) × RState :=
  rbg_protect QUNDEF (rt.rb_funcallv value id argv kwArgs) statusCell s

/-- Safely call rb_String and report exception status (rbg_helpers.h line
124).  Modelled from the spec. -/
def rbg_String_protect (rt : RubyRuntime) (v : VALUE)
    (statusCell : Option Status) (s : RState) : (Option Status × VALUE) × RState :=
  rbg_protect QUNDEF (rt.rb_String v) statusCell s

/-- Safely call rb_Array and report exception status (rbg_helpers.h line
141).  Modelled from the spec. -/
def rbg_Array_protect (rt : RubyRuntime) (v : VALUE)
    (statusCell : Option Status) (s : RState) : (Option Status × VALUE) × RState :=
  rbg_protect QUNDEF (rt.rb_Array v) statusCell s

/-- Safely call rb_Hash and report exception status (rbg_helpers.h line
144).  Modelled from the spec. -/
def rbg_Hash_protect (rt : RubyRuntime) (v : VALUE)
    (statusCell : Option Status) (s : RState) : (Option Status × VALUE) × RState :=
  rbg_protect QUNDEF (rt.rb_Hash v) statusCell s

/-- Safely call rb_define_class[_under] and report exception status
(rbg_helpers.h lines 156 to 159).  Modelled from the spec. -/
def rbg_define_class_protect (rt : RubyRuntime) (name : String)
    (underClass : VALUE) (parentClass : VALUE) (statusCell : Option Status)
    (s : RState) : (Option Status × VALUE) × RState :=
  rbg_protect QUNDEF (rt.rb_define_class name underClass parentClass) statusCell s

/-- Safely call rb_define_module[_under] and report exception status
(rbg_helpers.h lines 162 to 164).  Modelled from the spec. -/
def rbg_define_module_protect (rt : RubyRuntime) (name : String)
    (underClass : VALUE) (statusCell : Option Status) (s : RState) :
    (Option Status × VALUE) × RState :=
  rbg_protect QUNDEF (rt.rb_define_module name underClass) statusCell s

/-- Safely call rb_num2dbl(rb_Float) and report exception status
(rbg_helpers.h line 138); the double result is modelled as a rational.
Modelled from the spec. -/
def rbg_obj2double_protect (rt : RubyRuntime) (v : VALUE)
    (statusCell : Option Status) (s : RState) : (Option Status × ℚ) × RState :=
  rbg_protect 0 (rt.rb_num2dbl v) statusCell s

/-- Safely call rb_proc_call_with_block and report exception status
(rbg_helpers.h lines 115 to 118).  Modelled from the spec. -/
def rbg_proc_call_with_block_protect (rt : RubyRuntime) (value : VALUE)
    (argv : List VALUE) (blockArg : VALUE) (statusCell : Option Status)
    (s : RState) : (Option Status × VALUE) × RState :=
  rbg_protect QUNDEF (rt.rb_proc_call value argv blockArg) statusCell s

/-- Safely call rb_block_call, invoking the registered pvoid-context block
handler with the given context as the block, and report exception status
(rbg_helpers.h lines 101 to 104).  Modelled from the spec: the black-box
runtime method yields once to the registered handler with the yield
arguments and the nested block argument, and the result of the call is the
realised block result (spec.md sections 4.2 and 8). -/
def rbg_block_call_pvoid_protect (handler : Rbg_pvoid_block_call)
    (context : PVoid) (yieldArgs : List VALUE) (blockarg : VALUE)
    (statusCell : Option Status) (s : RState) : (Option Status × VALUE) × RState :=
  rbg_protect QUNDEF (rbg_realize_return (handler context yieldArgs blockarg)) statusCell s

/- ## Helper predicate and core lemma for the status contract -/

/-- The status-reporting contract of a single protected operation: when
the underlying action completes with value v the call reports Ok with
exactly v and the successor state of the action; when the action jumps, the
call reports Failed; on both paths the status cell has been written. -/
def ProtectReports {α : Type} (action : RComp α) (s : RState)
    (result : (Option Status × α) × RState) : Prop :=
  (∀ v t, action s = (Except.ok v, t) → result = ((some Status.ok, v), t)) ∧
  (∀ j t, action s = (Except.error j, t) → result.1.1 = some Status.failed) ∧
  result.1.1 ≠ none

theorem rbg_protect_reports {α : Type} (sentinel : α) (action : RComp α)
    (statusCell : Option Status) (s : RState) :
    ProtectReports action s (rbg_protect sentinel action statusCell s) := by
  refine ⟨?_, ?_, ?_⟩
  · intro v t h
    simp [rbg_protect, h]
  · intro j t h
    simp [rbg_protect, h]
  · cases h : action s with
    | mk r s1 =>
      cases r <;> simp [rbg_protect, h]

/- ## Method calling (rbg_helpers.h lines 219 to 246) -/

/-- Value used to identify a particular callback (rbg_helpers.h lines 223
to 228, struct Rbg_method_id): symbol for the method name; class for a
regular method, attached object for a singleton. -/
structure Rbg_method_id where
  method : VALUE
  target : VALUE
deriving DecidableEq, Repr

/-- Swift callback that all methods go through (rbg_helpers.h lines 231
to 237, Rbg_method_call): method-name symbol, target chain, self, argument
vector; the Rbg_return_value out-parameter becomes the function result. -/
abbrev Rbg_method_call := VALUE → List VALUE → VALUE → List VALUE → Rbg_return_value

/-- Interning a name: a fixed injective encoding of strings into opaque
identifier handles.  Modelled from the spec: identifiers are produced only
via the intern operation (spec.md section 3). -/
def rb_intern (name : String) : ID :=
  name.foldl (fun a c => a * 1114112 + c.toNat + 1) 0

/-- Per-process method-callback state: the single registered method-call
handler (rbg_register_method_callback, rbg_helpers.h line 238) and the
set of method definitions made through the boundary. -/
structure MethodRegistry where
  handler : Rbg_method_call
  defined : List Rbg_method_id

/-- Define a regular method on some class (rbg_helpers.h line 243).
Modelled from the spec: interns the name, records the (symbol, class)
callback handle that identifies this definition, and returns it. -/
def rbg_define_method (reg : MethodRegistry) (clazz : VALUE) (name : String) :
    MethodRegistry × Rbg_method_id :=
  let mid : Rbg_method_id := ⟨rb_intern name, clazz⟩
  (⟨reg.handler, mid :: reg.defined⟩, mid)

/-- Record of one dispatch to the registered method-call handler: the
callback handle it was resolved with, the receiver and the arguments. -/
structure DispatchTrace where
  callbackId : Rbg_method_id
  self : VALUE
  argv : List VALUE
deriving DecidableEq, Repr

/-- Opaque exception object used by the model when a method is not found. -/
def RBG_NO_METHOD_ERROR : VALUE := 90

/-- Invocation of a method defined through the boundary: the runtime
resolves the (interned name, class) pair; if it names a definition made
via rbg_define_method, the single registered handler is dispatched with
that callback handle, the receiver and the arguments, and its
ReturnInstruction is realised under the protected call.  Modelled from
the spec: spec.md sections 4.2 and 8 (method-call scenario).  The second
component records the dispatch actually made, if any. -/
def rbg_invoke_method (reg : MethodRegistry) (clazz : VALUE) (self : VALUE)
    (name : String) (argv : List VALUE) (statusCell : Option Status)
    (s : RState) : ((Option Status × VALUE) × RState) × Option DispatchTrace :=
  let mid : Rbg_method_id := ⟨rb_intern name, clazz⟩
  if mid ∈ reg.defined then
    (rbg_protect QUNDEF
      (rbg_realize_return (reg.handler mid.method [mid.target] self argv))
      statusCell s,
     some ⟨mid, self, argv⟩)
  else
    (rbg_protect QUNDEF (rbg_raise RBG_NO_METHOD_ERROR) statusCell s, none)

/- ## Arity checking (rbg_helpers.h line 147) -/

/-- Opaque ArgumentError exception object of the model. -/
def RBG_ARGUMENT_ERROR : VALUE := 91

/-- The arity-checking action underneath rbg_error_arity_protect.
Modelled from the spec: checkArity(argc, min, max) fails iff argc < min
or (max >= 0 and argc > max); a failure is a runtime raise (spec.md
sections 7 and 8). -/
def rb_check_arity_comp (argc mn mx : Int) : RComp Unit := fun s =>
  if argc < mn ∨ (0 ≤ mx ∧ mx < argc) then rbg_raise RBG_ARGUMENT_ERROR s
  else (Except.ok (), s)

/-- Safely call rb_error_arity and report exception status (rbg_helpers.h
line 147).  Modelled from the spec. -/
def rbg_error_arity_protect (argc mn mx : Int) (statusCell : Option Status)
    (s : RState) : (Option Status × Unit) × RState :=
  rbg_protect () (rb_check_arity_comp argc mn mx) statusCell s

/- ## Integer conversions (rbg_helpers.h lines 130 to 135) -/

/-- What a runtime value denotes numerically: an exact rational (covering
exact integers and fractional numerics alike) or nothing numeric at all. -/
inductive RbNum where
  | num (q : ℚ)
  | nonNumeric
deriving DecidableEq, Repr

/-- Opaque RangeError exception object of the model. -/
def RBG_RANGE_ERROR : VALUE := 92

/-- Opaque TypeError exception object of the model. -/
def RBG_TYPE_ERROR : VALUE := 93

/-- Largest C unsigned long (the headers target 64-bit unsigned long,
rbg_helpers.h line 21). -/
def ULONG_MAX : Nat := 2 ^ 64 - 1

/-- Largest C long. -/
def LONG_MAX : Int := 2 ^ 63 - 1

/-- Smallest C long. -/
def LONG_MIN : Int := -(2 ^ 63)

/-- The conversion underneath rbg_obj2ulong_protect.  Modelled from the
spec: reject non-numeric input, reject a negative number explicitly,
reject a fractional number rather than truncate, reject a number above
the unsigned range; otherwise return the exact value (rbg_helpers.h lines
130 to 132; spec.md sections 4.1 and 7). -/
def rbg_obj2ulong_comp (v : RbNum) : RComp Nat := fun s =>
  match v with
  | RbNum.nonNumeric => rbg_raise RBG_TYPE_ERROR s
  | RbNum.num q =>
      if q < 0 then rbg_raise RBG_RANGE_ERROR s
      else if q.den ≠ 1 then rbg_raise RBG_RANGE_ERROR s
      else if (ULONG_MAX : ℚ) < q then rbg_raise RBG_RANGE_ERROR s
      else (Except.ok q.num.toNat, s)

/-- Safely call rb_num2ulong(rb_Integer) and report exception status;
additionally, raise an exception if the number is negative (rbg_helpers.h
lines 130 to 132).  Modelled from the spec. -/
def rbg_obj2ulong_protect (v : RbNum) (statusCell : Option Status)
    (s : RState) : (Option Status × Nat) × RState :=
  rbg_protect 0 (rbg_obj2ulong_comp v) statusCell s

/-- The conversion underneath rbg_obj2long_protect.  Modelled from the
spec: reject non-numeric, fractional and out-of-range input rather than
truncate; otherwise return the exact value (rbg_helpers.h lines 134 to
135; spec.md sections 4.1 and 7). -/
def rbg_obj2long_comp (v : RbNum) : RComp Int := fun s =>
  match v with
  | RbNum.nonNumeric => rbg_raise RBG_TYPE_ERROR s
  | RbNum.num q =>
      if q.den ≠ 1 then rbg_raise RBG_RANGE_ERROR s
      else if q < (LONG_MIN : ℚ) ∨ (LONG_MAX : ℚ) < q then rbg_raise RBG_RANGE_ERROR s
      else (Except.ok q.num, s)

/-- Safely call rb_num2long(rb_Integer) and report exception status
(rbg_helpers.h lines 134 to 135).  Modelled from the spec. -/
def rbg_obj2long_protect (v : RbNum) (statusCell : Option Status)
    (s : RState) : (Option Status × Int) × RState :=
  rbg_protect 0 (rbg_obj2long_comp v) statusCell s

/- ## Rbg_value boxes (rbg_helpers.h lines 210 to 217) -/

/-- The heap of Rbg_value boxes (struct Rbg_value, rbg_helpers.h lines
211 to 213: a box holds exactly one VALUE).  A box handle is an index;
a live box maps to some rooted value, a freed or never-allocated slot to
none. -/
structure BoxHeap where
  next : Nat
  slot : Nat → Option VALUE

/-- Allocate a box rooting value (rbg_value_alloc, rbg_helpers.h line
215).  Modelled from the spec: creates a new box exclusively owning a
rooted reference to the value (spec.md section 4.3). -/
def rbg_value_alloc (h : BoxHeap) (v : VALUE) : BoxHeap × Nat :=
  (⟨h.next + 1, fun b => if b = h.next then some v else h.slot b⟩, h.next)

/-- The value a box currently roots, if the box is live. -/
def boxValue (h : BoxHeap) (b : Nat) : Option VALUE :=
  h.slot b

/-- Duplicate a box (rbg_value_dup, rbg_helpers.h line 216).  Modelled
from the spec: creates an independent box rooting the same underlying
value (spec.md section 4.3). -/
def rbg_value_dup (h : BoxHeap) (b : Nat) : BoxHeap × Nat :=
  rbg_value_alloc h ((h.slot b).getD QUNDEF)

/-- Free a box (rbg_value_free, rbg_helpers.h line 217).  Modelled from
the spec: releases the rooting held by this box and deallocates the box itself
(spec.md section 4.3). -/
def rbg_value_free (h : BoxHeap) (b : Nat) : BoxHeap :=
  ⟨h.next, fun x => if x = b then none else h.slot x⟩

/-- A value is rooted (safe to pass into subsequent protected calls)
while at least one live box holds it (spec.md section 4.3). -/
def rooted (h : BoxHeap) (v : VALUE) : Prop :=
  ∃ b, b < h.next ∧ h.slot b = some v

/- ## Instance binding (rbg_helpers.h lines 248 to 264) -/

/-- Callback into Swift code for instance allocation (rbg_helpers.h line
251, Rbg_bind_allocate_call): class name to native pointer, 0 standing
for null. -/
abbrev Rbg_bind_allocate_call := String → Nat

/-- One binding-registry entry: a runtime instance, the registry
generation it was bound under, and the caller-owned native pointer. -/
structure BindEntry where
  inst : VALUE
  gen : Nat
  ptr : Nat
deriving DecidableEq, Repr

/-- The binding registry: current generation plus the live entries.
Modelled from the spec: maps runtime instances to caller-owned native
pointers, created by the allocate callback and removed on reclamation
(spec.md sections 3 and 4.4). -/
structure BindRegistry where
  generation : Nat
  entries : List BindEntry
deriving DecidableEq, Repr

/-- Instantiation of a bound class: the runtime invokes the registered
allocate callback on the class name and the returned pointer is
associated 1:1 with the new instance under the current generation.
Modelled from the spec: spec.md section 4.4. -/
def rbg_instantiate (reg : BindRegistry) (allocCb : Rbg_bind_allocate_call)
    (className : String) (inst : VALUE) : BindRegistry × Nat :=
  let p := allocCb className
  (⟨reg.generation, ⟨inst, reg.generation, p⟩ :: reg.entries⟩, p)

/-- Reclamation of a bound instance: its entry is removed from the
registry (the free callback releases the caller-owned state).  Modelled
from the spec: spec.md section 4.4. -/
def rbg_collect (reg : BindRegistry) (inst : VALUE) : BindRegistry :=
  ⟨reg.generation, reg.entries.filter (fun e => decide (e.inst ≠ inst))⟩

/-- Get hold of the Swift object for this instance of a bound class, or
null if something is amiss (rbg_get_bound_object, rbg_helpers.h lines
262 to 264).  Modelled from the spec: returns none when the instance was
never bound, was bound under a different registry generation, or has
already been freed; otherwise the associated pointer (spec.md sections
4.4 and 7). -/
def rbg_get_bound_object (reg : BindRegistry) (inst : VALUE) : Option Nat :=
  match reg.entries.find? (fun e => decide (e.inst = inst)) with
  | none => none
  | some e => if e.gen = reg.generation then some e.ptr else none

/-- A concrete runtime whose primitives all succeed, used to instantiate
universally quantified theorems at evaluable inputs. -/
def sampleRuntime : RubyRuntime where
  rb_load := fun _ _ s => (Except.ok (), s)
  rb_intern_rt := fun _ s => (Except.ok 11, s)
  rb_const_get := fun v _ s => (Except.ok v, s)
  rb_const_set := fun _ _ _ s => (Except.ok (), s)
  rb_inspect := fun v s => (Except.ok v, s)
  rb_funcallv := fun v _ _ _ s => (Except.ok v, s)
  rb_String := fun v s => (Except.ok v, s)
  rb_Array := fun v s => (Except.ok v, s)
  rb_Hash := fun v s => (Except.ok v, s)
  rb_define_class := fun _ _ _ s => (Except.ok 21, s)
  rb_define_module := fun _ _ s => (Except.ok 22, s)
  rb_num2dbl := fun _ s => (Except.ok 0, s)
  rb_proc_call := fun _ _ _ s => (Except.ok 23, s)

/-- A concrete method registry whose handler always answers Value(3),
used to instantiate universally quantified theorems at evaluable inputs. -/
def sampleMethodRegistry : MethodRegistry where
  handler := fun _ _ _ _ => ⟨Rbg_return_type.RBG_RT_VALUE, 3⟩
  defined := []

/- ## Theorems -/

/-- C1: for every operation of the Status-Reporting Invoker (load, intern,
constant get/set, inspect, method call, block/proc call, numeric
conversion, coercion, class/module definition) and every input: if the
underlying runtime action does not raise, the operation writes Status Ok
and returns exactly the true result of the action; if the action raises, it
writes Status Failed; on both paths the status cell is written before the
operation returns, never left unset. -/
theorem protected_ops_report_status (rt : RubyRuntime)
    (fname recvV clazz under parent constV v : VALUE) (idv : ID)
    (name : String) (wrap kw : Bool) (argv : List VALUE)
    (handler : Rbg_pvoid_block_call) (ctx : PVoid) (yargs : List VALUE)
    (barg : VALUE) (num : RbNum) (argc mn mx : Int)
    (statusCell : Option Status) (s : RState) :
    ProtectReports (rt.rb_load fname wrap) s
      (rbg_load_protect rt fname wrap statusCell s) ∧
    ProtectReports (rt.rb_intern_rt name) s
      (rbg_intern_protect rt name statusCell s) ∧
    ProtectReports (rt.rb_const_get recvV idv) s
      (rbg_const_get_protect rt recvV idv statusCell s) ∧
    ProtectReports (rt.rb_const_set clazz idv constV) s
      (rbg_const_set_protect rt clazz idv constV statusCell s) ∧
    ProtectReports (rt.rb_inspect v) s
      (rbg_inspect_protect rt v statusCell s) ∧
    ProtectReports (rt.rb_funcallv recvV idv argv kw) s
      (rbg_funcallv_protect rt recvV idv argv kw statusCell s) ∧
    ProtectReports (rbg_realize_return (handler ctx yargs barg)) s
      (rbg_block_call_pvoid_protect handler ctx yargs barg statusCell s) ∧
    ProtectReports (rt.rb_proc_call v argv barg) s
      (rbg_proc_call_with_block_protect rt v argv barg statusCell s) ∧
    ProtectReports (rbg_obj2ulong_comp num) s
      (rbg_obj2ulong_protect num statusCell s) ∧
    ProtectReports (rbg_obj2long_comp num) s
      (rbg_obj2long_protect num statusCell s) ∧
    ProtectReports (rt.rb_num2dbl v) s
      (rbg_obj2double_protect rt v statusCell s) ∧
    ProtectReports (rt.rb_String v) s
      (rbg_String_protect rt v statusCell s) ∧
    ProtectReports (rt.rb_Array v) s
      (rbg_Array_protect rt v statusCell s) ∧
    ProtectReports (rt.rb_Hash v) s
      (rbg_Hash_protect rt v statusCell s) ∧
    ProtectReports (rb_check_arity_comp argc mn mx) s
      (rbg_error_arity_protect argc mn mx statusCell s) ∧
    ProtectReports (rt.rb_define_class name under parent) s
      (rbg_define_class_protect rt name under parent statusCell s) ∧
    ProtectReports (rt.rb_define_module name under) s
      (rbg_define_module_protect rt name under statusCell s) :=
  ⟨rbg_protect_reports _ _ _ _, rbg_protect_reports _ _ _ _,
   rbg_protect_reports _ _ _ _, rbg_protect_reports _ _ _ _,
   rbg_protect_reports _ _ _ _, rbg_protect_reports _ _ _ _,
   rbg_protect_reports _ _ _ _, rbg_protect_reports _ _ _ _,
   rbg_protect_reports _ _ _ _, rbg_protect_reports _ _ _ _,
   rbg_protect_reports _ _ _ _, rbg_protect_reports _ _ _ _,
   rbg_protect_reports _ _ _ _, rbg_protect_reports _ _ _ _,
   rbg_protect_reports _ _ _ _, rbg_protect_reports _ _ _ _,
   rbg_protect_reports _ _ _ _⟩

/-- Witness for C1 at a concrete succeeding load. -/
theorem protected_ops_report_status_witness :
    rbg_load_protect sampleRuntime 1 true (some Status.failed) ⟨none⟩ =
      ((some Status.ok, ()), ⟨none⟩) :=
  (protected_ops_report_status sampleRuntime 1 2 3 4 5 6 7 11 "c" true false
    [] (fun _ _ _ => ⟨Rbg_return_type.RBG_RT_VALUE, 0⟩) 0 [] 0
    (RbNum.num 2) 1 0 2 (some Status.failed) ⟨none⟩).1.1 () ⟨none⟩ rfl

/-- C2: every protected entry point returns normally to its caller with a
definite written status; any non-local jump inside the wrapped action is
intercepted at the boundary and converted into Status Failed, never
unwinding past the protected call. -/
theorem protected_call_absorbs_jumps {α : Type} (sentinel : α)
    (action : RComp α) (statusCell : Option Status) (s : RState) :
    (∃ st v t, rbg_protect sentinel action statusCell s = ((some st, v), t)) ∧
    ∀ j t, action s = (Except.error j, t) →
      rbg_protect sentinel action statusCell s =
        ((some Status.failed, sentinel), t) := by
  constructor
  · cases h : action s with
    | mk r t =>
      cases r with
      | ok v => exact ⟨Status.ok, v, t, by simp [rbg_protect, h]⟩
      | error j => exact ⟨Status.failed, sentinel, t, by simp [rbg_protect, h]⟩
  · intro j t h
    simp [rbg_protect, h]

/-- Witness for C2 at a concrete raising action. -/
theorem protected_call_absorbs_jumps_witness :
    rbg_protect (52 : VALUE) (rbg_raise 7) none ⟨none⟩ =
      ((some Status.failed, 52), ⟨some 7⟩) :=
  (protected_call_absorbs_jumps 52 (rbg_raise 7) none ⟨none⟩).2
    (JumpKind.raised 7) ⟨some 7⟩ rfl

/-- C3: for a block invocation through a protected call with a registered
handler, a handler answer Value(v) makes the enclosing protected call
report Ok with result v; a handler answer Raise(e) makes it report Failed
with the currently-pending exception of the runtime equal to e. -/
theorem block_handler_value_and_raise (handler : Rbg_pvoid_block_call)
    (ctx : PVoid) (yargs : List VALUE) (barg rv e : VALUE)
    (statusCell : Option Status) (s : RState) :
    (handler ctx yargs barg = ⟨Rbg_return_type.RBG_RT_VALUE, rv⟩ →
      rbg_block_call_pvoid_protect handler ctx yargs barg statusCell s =
        ((some Status.ok, rv), s)) ∧
    (handler ctx yargs barg = ⟨Rbg_return_type.RBG_RT_RAISE, e⟩ →
      (rbg_block_call_pvoid_protect handler ctx yargs barg statusCell s).1.1 =
        some Status.failed ∧
      (rbg_block_call_pvoid_protect handler ctx yargs barg statusCell s).2.pendingExc =
        some e) := by
  constructor
  · intro h
    simp [rbg_block_call_pvoid_protect, rbg_protect, rbg_realize_return, h]
  · intro h
    simp [rbg_block_call_pvoid_protect, rbg_protect, rbg_realize_return,
      rbg_raise, h]

/-- Witness for C3 at concrete Value- and Raise-answering handlers. -/
theorem block_handler_value_and_raise_witness :
    rbg_block_call_pvoid_protect
        (fun _ _ _ => ⟨Rbg_return_type.RBG_RT_VALUE, 3⟩) 0 [] 0 none ⟨none⟩ =
      ((some Status.ok, 3), ⟨none⟩) ∧
    (rbg_block_call_pvoid_protect
        (fun _ _ _ => ⟨Rbg_return_type.RBG_RT_RAISE, 7⟩) 0 [] 0 none ⟨none⟩).2.pendingExc =
      some 7 :=
  ⟨(block_handler_value_and_raise
      (fun _ _ _ => ⟨Rbg_return_type.RBG_RT_VALUE, 3⟩) 0 [] 0 3 7 none ⟨none⟩).1 rfl,
   ((block_handler_value_and_raise
      (fun _ _ _ => ⟨Rbg_return_type.RBG_RT_RAISE, 7⟩) 0 [] 0 3 7 none ⟨none⟩).2 rfl).2⟩

/-- C4: the ReturnInstruction vocabulary contains exactly the five cases
Value, Raise, Break, BreakWithValue and Jump, pairwise distinct; a
handler returning Jump makes the invoker let the in-flight non-local
transfer continue propagating instead of swallowing it. -/
theorem return_instruction_vocabulary :
    (∀ t : Rbg_return_type,
      t = Rbg_return_type.RBG_RT_VALUE ∨ t = Rbg_return_type.RBG_RT_RAISE ∨
      t = Rbg_return_type.RBG_RT_BREAK ∨ t = Rbg_return_type.RBG_RT_BREAK_VALUE ∨
      t = Rbg_return_type.RBG_RT_JUMP) ∧
    ([Rbg_return_type.RBG_RT_VALUE, Rbg_return_type.RBG_RT_RAISE,
      Rbg_return_type.RBG_RT_BREAK, Rbg_return_type.RBG_RT_BREAK_VALUE,
      Rbg_return_type.RBG_RT_JUMP].Nodup) ∧
    (∀ (tag : VALUE) (s : RState),
      rbg_realize_return ⟨Rbg_return_type.RBG_RT_JUMP, tag⟩ s =
        (Except.error (JumpKind.tag tag), s)) :=
  ⟨fun t => by cases t <;> simp, by decide, fun tag s => rfl⟩

/-- C5: after defining a method with interned name X on class C through
rbg_define_method, invoking that method dispatches the single registered
method-call handler with the callback-handle pair (method = X,
target = C), the receiver and the argument vector; if the handler answers
Value(r) the enclosing protected call reports Ok with result r. -/
theorem defined_method_dispatch (reg : MethodRegistry) (clazz self : VALUE)
    (name : String) (argv : List VALUE) (r : VALUE)
    (statusCell : Option Status) (s : RState)
    (hreg : reg.handler (rb_intern name) [clazz] self argv =
      ⟨Rbg_return_type.RBG_RT_VALUE, r⟩) :
    rbg_invoke_method (rbg_define_method reg clazz name).1 clazz self name
        argv statusCell s =
      (((some Status.ok, r), s),
       some ⟨⟨rb_intern name, clazz⟩, self, argv⟩) := by
  simp [rbg_invoke_method, rbg_define_method, rbg_protect,
    rbg_realize_return, hreg]

/-- Witness for C5: define name foo on class 5 over a registry whose
handler answers Value(3), then invoke it on receiver 6 with arguments
1 and 2. -/
theorem defined_method_dispatch_witness :
    rbg_invoke_method (rbg_define_method sampleMethodRegistry 5 "foo").1 5 6
        "foo" [1, 2] none ⟨none⟩ =
      (((some Status.ok, 3), ⟨none⟩),
       some ⟨⟨rb_intern "foo", 5⟩, 6, [1, 2]⟩) :=
  defined_method_dispatch sampleMethodRegistry 5 6 "foo" [1, 2] 3 none
    ⟨none⟩ rfl

/-- C6: the arity check reports Failed exactly when argc < min or
(max nonnegative and argc > max); it never fails when argc lies in
[min, max], nor when max is negative (unbounded) and argc is at least
min. -/
theorem arity_check_failed_iff (argc mn mx : Int)
    (statusCell : Option Status) (s : RState) :
    ((rbg_error_arity_protect argc mn mx statusCell s).1.1 =
        some Status.failed ↔ (argc < mn ∨ (0 ≤ mx ∧ mx < argc))) ∧
    (mn ≤ argc → argc ≤ mx →
      (rbg_error_arity_protect argc mn mx statusCell s).1.1 = some Status.ok) ∧
    (mx < 0 → mn ≤ argc →
      (rbg_error_arity_protect argc mn mx statusCell s).1.1 = some Status.ok) := by
  by_cases hc : argc < mn ∨ (0 ≤ mx ∧ mx < argc)
  · refine ⟨?_, ?_, ?_⟩
    · simp [rbg_error_arity_protect, rb_check_arity_comp, rbg_protect,
        rbg_raise, hc]
    · intro h1 h2
      omega
    · intro h1 h2
      omega
  · refine ⟨?_, ?_, ?_⟩
    · simp [rbg_error_arity_protect, rb_check_arity_comp, rbg_protect,
        rbg_raise, hc]
    · intro h1 h2
      simp [rbg_error_arity_protect, rb_check_arity_comp, rbg_protect,
        rbg_raise, hc]
    · intro h1 h2
      simp [rbg_error_arity_protect, rb_check_arity_comp, rbg_protect,
        rbg_raise, hc]

/-- Witness for C6: argc 2 within [1, 3] reports Ok. -/
theorem arity_check_failed_iff_witness :
    (rbg_error_arity_protect 2 1 3 none ⟨none⟩).1.1 = some Status.ok :=
  (arity_check_failed_iff 2 1 3 none ⟨none⟩).2.1 (by decide) (by decide)

/-- Closed form of the protected unsigned conversion on a numeric value. -/
theorem obj2ulong_protect_eq (q : ℚ) (statusCell : Option Status) (s : RState) :
    rbg_obj2ulong_protect (RbNum.num q) statusCell s =
      if q < 0 ∨ q.den ≠ 1 ∨ (ULONG_MAX : ℚ) < q then
        ((some Status.failed, 0), { s with pendingExc := some RBG_RANGE_ERROR })
      else ((some Status.ok, q.num.toNat), s) := by
  unfold rbg_obj2ulong_protect rbg_obj2ulong_comp rbg_protect rbg_raise
  by_cases h0 : q < 0 <;> by_cases h1 : q.den = 1 <;>
    by_cases h2 : (ULONG_MAX : ℚ) < q <;> simp [h0, h1, h2]

/-- Closed form of the protected signed conversion on a numeric value. -/
theorem obj2long_protect_eq (q : ℚ) (statusCell : Option Status) (s : RState) :
    rbg_obj2long_protect (RbNum.num q) statusCell s =
      if q.den ≠ 1 ∨ q < (LONG_MIN : ℚ) ∨ (LONG_MAX : ℚ) < q then
        ((some Status.failed, 0), { s with pendingExc := some RBG_RANGE_ERROR })
      else ((some Status.ok, q.num), s) := by
  unfold rbg_obj2long_protect rbg_obj2long_comp rbg_protect rbg_raise
  by_cases h1 : q.den = 1 <;>
    by_cases h2 : q < (LONG_MIN : ℚ) ∨ (LONG_MAX : ℚ) < q <;> simp [h1, h2]

/-- C7: the unsigned conversion reports Failed whenever the value denotes
a negative number; both integer conversions report Failed on fractional
or out-of-range input rather than truncating; and whenever they report
Ok the returned integer equals the exact numeric denotation of the value. -/
theorem integer_conversions_exact_or_failed (q : ℚ)
    (statusCell : Option Status) (s : RState) :
    (q < 0 →
      (rbg_obj2ulong_protect (RbNum.num q) statusCell s).1.1 =
        some Status.failed) ∧
    (q.den ≠ 1 →
      (rbg_obj2ulong_protect (RbNum.num q) statusCell s).1.1 =
        some Status.failed ∧
      (rbg_obj2long_protect (RbNum.num q) statusCell s).1.1 =
        some Status.failed) ∧
    ((ULONG_MAX : ℚ) < q →
      (rbg_obj2ulong_protect (RbNum.num q) statusCell s).1.1 =
        some Status.failed) ∧
    (q < (LONG_MIN : ℚ) ∨ (LONG_MAX : ℚ) < q →
      (rbg_obj2long_protect (RbNum.num q) statusCell s).1.1 =
        some Status.failed) ∧
    ((rbg_obj2ulong_protect (RbNum.num q) statusCell s).1.1 =
        some Status.ok →
      (((rbg_obj2ulong_protect (RbNum.num q) statusCell s).1.2 : ℚ) = q)) ∧
    ((rbg_obj2long_protect (RbNum.num q) statusCell s).1.1 =
        some Status.ok →
      (((rbg_obj2long_protect (RbNum.num q) statusCell s).1.2 : ℚ) = q)) := by
  have hu := obj2ulong_protect_eq q statusCell s
  have hl := obj2long_protect_eq q statusCell s
  refine ⟨?_, ?_, ?_, ?_, ?_, ?_⟩
  · intro h
    rw [hu]
    simp [h]
  · intro h
    refine ⟨?_, ?_⟩
    · rw [hu]
      simp [h]
    · rw [hl]
      simp [h]
  · intro h
    rw [hu]
    simp [h]
  · intro h
    rw [hl]
    simp [h]
  · intro h
    rw [hu] at h ⊢
    by_cases hc : q < 0 ∨ q.den ≠ 1 ∨ (ULONG_MAX : ℚ) < q
    · simp [hc] at h
    · simp only [hc, if_false]
      push_neg at hc
      obtain ⟨h0, h1, _⟩ := hc
      have hq : (q.num : ℚ) = q := (Rat.den_eq_one_iff q).mp h1
      have hnn : (0 : ℤ) ≤ q.num := Rat.num_nonneg.mpr h0
      rw [← hq]
      exact_mod_cast congrArg (fun z : ℤ => (z : ℚ)) (Int.toNat_of_nonneg hnn)
  · intro h
    rw [hl] at h ⊢
    by_cases hc : q.den ≠ 1 ∨ q < (LONG_MIN : ℚ) ∨ (LONG_MAX : ℚ) < q
    · simp [hc] at h
    · simp only [hc, if_false]
      push_neg at hc
      exact (Rat.den_eq_one_iff q).mp hc.1

/-- Witness for C7: the unsigned conversion fails at the negative input
minus three and succeeds exactly at five; the signed conversion fails at
the fractional input seven halves. -/
theorem integer_conversions_exact_or_failed_witness :
    (rbg_obj2ulong_protect (RbNum.num (-3)) none ⟨none⟩).1.1 =
      some Status.failed ∧
    (rbg_obj2long_protect (RbNum.num (mkRat 7 2)) none ⟨none⟩).1.1 =
      some Status.failed ∧
    ((rbg_obj2ulong_protect (RbNum.num 5) none ⟨none⟩).1.2 : ℚ) = 5 :=
  ⟨(integer_conversions_exact_or_failed (-3) none ⟨none⟩).1 (by decide),
   ((integer_conversions_exact_or_failed (mkRat 7 2) none ⟨none⟩).2.1
     (by decide)).2,
   (integer_conversions_exact_or_failed 5 none ⟨none⟩).2.2.2.2.1 (by decide)⟩

/-- C8: after allocating a box for a value and duplicating it, the two
boxes are distinct handles that both root the same underlying value;
freeing either box leaves the other box live, still holding the value,
and the value still rooted. -/
theorem box_dup_alloc_independent (h : BoxHeap) (v : VALUE) :
    let a := rbg_value_alloc h v
    let d := rbg_value_dup a.1 a.2
    boxValue d.1 a.2 = some v ∧
    boxValue d.1 d.2 = some v ∧
    a.2 ≠ d.2 ∧
    boxValue (rbg_value_free d.1 a.2) d.2 = some v ∧
    boxValue (rbg_value_free d.1 d.2) a.2 = some v ∧
    rooted (rbg_value_free d.1 a.2) v ∧
    rooted (rbg_value_free d.1 d.2) v := by
  intro a d
  have ha : a = (⟨h.next + 1,
      fun b => if b = h.next then some v else h.slot b⟩, h.next) := rfl
  have hd1 : d.1.next = h.next + 2 := by
    simp [d, a, rbg_value_dup, rbg_value_alloc]
  have hd2 : d.2 = h.next + 1 := by
    simp [d, a, rbg_value_dup, rbg_value_alloc]
  have hslot : ∀ b, d.1.slot b =
      if b = h.next + 1 then some v
      else if b = h.next then some v else h.slot b := by
    intro b
    simp [d, a, rbg_value_dup, rbg_value_alloc]
  refine ⟨?_, ?_, ?_, ?_, ?_, ?_, ?_⟩
  · simp [boxValue, hslot, ha]
  · simp [boxValue, hslot, hd2]
  · simp [ha, hd2]
  · simp [boxValue, rbg_value_free, hslot, ha, hd2]
  · simp [boxValue, rbg_value_free, hslot, ha, hd2]
  · exact ⟨h.next + 1, by simp [rbg_value_free, hd1],
      by simp [rbg_value_free, hslot, ha]⟩
  · exact ⟨h.next, by simp [rbg_value_free, hd1],
      by simp [rbg_value_free, hslot, hd2]⟩

/-- C9: looking up the bound native object returns null, as an explicit
absent result, whenever the instance was never bound, was bound under a
different registry generation, or has already been freed; for a live
instance bound in the current generation it returns exactly the pointer
produced by the registered allocate callback for that instantiation. -/
theorem bound_object_lookup (reg : BindRegistry)
    (allocCb : Rbg_bind_allocate_call) (className : String)
    (inst : VALUE) (e : BindEntry) :
    ((∀ x ∈ reg.entries, x.inst ≠ inst) →
      rbg_get_bound_object reg inst = none) ∧
    (reg.entries.find? (fun x => decide (x.inst = inst)) = some e →
      e.gen ≠ reg.generation →
      rbg_get_bound_object reg inst = none) ∧
    (rbg_get_bound_object (rbg_collect reg inst) inst = none) ∧
    (rbg_get_bound_object (rbg_instantiate reg allocCb className inst).1
        inst = some (allocCb className)) := by
  refine ⟨?_, ?_, ?_, ?_⟩
  · intro hnone
    have hfind : reg.entries.find? (fun x => decide (x.inst = inst)) = none := by
      rw [List.find?_eq_none]
      intro x hx
      simpa using hnone x hx
    simp [rbg_get_bound_object, hfind]
  · intro hfind hgen
    simp [rbg_get_bound_object, hfind, hgen]
  · have hfind : (rbg_collect reg inst).entries.find?
        (fun x => decide (x.inst = inst)) = none := by
      rw [List.find?_eq_none]
      intro x hx
      have hmem := List.mem_filter.mp hx
      simpa using of_decide_eq_true hmem.2
    simp [rbg_get_bound_object, hfind]
  · simp [rbg_get_bound_object, rbg_instantiate, List.find?]

/-- Witness for C9: an empty registry answers null, and instantiating
class Thing under the allocate callback that returns pointer 77 makes
the lookup answer exactly 77. -/
theorem bound_object_lookup_witness :
    rbg_get_bound_object ⟨0, []⟩ 5 = none ∧
    rbg_get_bound_object
        (rbg_instantiate ⟨0, []⟩ (fun _ => 77) "Thing" 5).1 5 = some 77 :=
  ⟨(bound_object_lookup ⟨0, []⟩ (fun _ => 77) "Thing" 5 ⟨5, 0, 77⟩).1
     (by simp),
   (bound_object_lookup ⟨0, []⟩ (fun _ => 77) "Thing" 5 ⟨5, 0, 77⟩).2.2.2⟩

end RubyGateway
